import Mathlib

/-!
Shallow embedding of the Wiki Explorer query controller (src/index.jsx).

The React component `App` holds six pieces of controller state
(`searchTerm`, `results`, `loading`, `error`, `selectedArticle`,
`hasSearched`) and three operations: `handleSearch` (submitSearch),
`fetchArticleExtract` (selectArticle) and `clearArticle`
(dismissArticle).  Each async handler is embedded as a pure state
transition parameterised by the outcome of its single fetch; the
network requests it issues and the `console.error` diagnostics it logs
are embedded by companion functions.
-/

/-- One entry of `data.query.search` in a search response
    (pageid, title, snippet). -/
structure SearchResult where
  pageid : Nat
  title : String
  snippet : String
deriving DecidableEq

/-- The object passed to `setSelectedArticle` on a successful extract
    fetch (src/index.jsx lines 199-203). -/
structure Article where
  title : String
  content : String
  url : String
deriving DecidableEq

/-- The controller state: the six `useState` cells of `App` that the
    query controller reads or writes. -/
structure AppState where
  searchTerm : String
  results : List SearchResult
  loading : Bool
  error : Option String
  selectedArticle : Option Article
  hasSearched : Bool
deriving DecidableEq

/-- The `useState` initial values (src/index.jsx lines 11-21). -/
def initialState : AppState :=
  { searchTerm := "", results := [], loading := false, error := none,
    selectedArticle := none, hasSearched := false }

/-- The search input's `onChange` handler (src/index.jsx line 367). -/
def setSearchTerm (s : AppState) (t : String) : AppState :=
  { s with searchTerm := t }

/-- Body of a parsed search response: `data.error.info` when the API
    reported an error, and `data.query.search` (absent field modelled
    as `none`, matching the `|| []` fallback site). -/
structure SearchData where
  error : Option String
  search : Option (List SearchResult)
deriving DecidableEq

/-- Outcome of the search fetch as observed by `handleSearch`:
    a transport-level rejection (with the exception's message), a
    non-ok HTTP status, or a parsed JSON body. -/
inductive SearchFetch where
  | transportError (detail : String)
  | httpNotOk
  | ok (d : SearchData)
deriving DecidableEq

/-- One page object of `data.query.pages` (formatversion 2); `extract`
    is `none` when the field is absent. -/
structure ExtractPage where
  title : String
  extract : Option String
deriving DecidableEq

/-- Body of a parsed extract response: `data.error.info` when present
    (note: `fetchArticleExtract` never inspects it) and
    `data.query.pages[0]` (`none` when the chain is undefined). -/
structure ExtractData where
  error : Option String
  page : Option ExtractPage
deriving DecidableEq

/-- Outcome of the extract fetch as observed by `fetchArticleExtract`. -/
inductive ExtractFetch where
  | transportError (detail : String)
  | httpNotOk
  | ok (d : ExtractData)
deriving DecidableEq

/-- UTF-8 encoding of a Unicode code point, as a list of byte values. -/
def utf8Bytes (n : Nat) : List Nat :=
  if n < 128 then [n]
  else if n < 2048 then [192 + n / 64, 128 + n % 64]
  else if n < 65536 then [224 + n / 4096, 128 + (n / 64) % 64, 128 + n % 64]
  else [240 + n / 262144, 128 + (n / 4096) % 64, 128 + (n / 64) % 64, 128 + n % 64]

/-- Uppercase hexadecimal digit, as used by `encodeURIComponent`. -/
def hexDigitChar (n : Nat) : Char :=
  if n < 10 then Char.ofNat (48 + n) else Char.ofNat (55 + n)

/-- Percent-encoding of one byte: `%` followed by two uppercase hex
    digits. -/
def percentEncodeByte (b : Nat) : String :=
  String.mk ['%', hexDigitChar (b / 16), hexDigitChar (b % 16)]

/-- The characters `encodeURIComponent` leaves unescaped:
    alphanumerics and `-_.!~*'()`. -/
def isUnescapedChar (c : Char) : Bool :=
  c.isAlphanum || c = '-' || c = '_' || c = '.' || c = '!' || c = '~' ||
    c = '*' || c = Char.ofNat 39 || c = '(' || c = ')'

/-- JavaScript `encodeURIComponent`: unescaped characters pass through,
    every other code point has its UTF-8 bytes percent-encoded. -/
def encodeURIComponent (s : String) : String :=
  String.join (s.data.map (fun c =>
    if isUnescapedChar c then String.mk [c]
    else String.join ((utf8Bytes c.toNat).map percentEncodeByte)))

/-- Characters stripped by JavaScript `String.prototype.trim`: the
    ECMA-262 WhiteSpace set (TAB, VT, FF, SP, NBSP, BOM and every
    Space_Separator code point: U+1680, U+2000-U+200A, U+202F, U+205F,
    U+3000) together with the LineTerminator set (LF, CR, U+2028,
    U+2029). -/
def isJsWhitespace (c : Char) : Bool :=
  c.toNat = 9 || c.toNat = 10 || c.toNat = 11 || c.toNat = 12 ||
    c.toNat = 13 || c.toNat = 32 || c.toNat = 160 || c.toNat = 5760 ||
    (8192 ≤ c.toNat && c.toNat ≤ 8202) || c.toNat = 8232 ||
    c.toNat = 8233 || c.toNat = 8239 || c.toNat = 8287 ||
    c.toNat = 12288 || c.toNat = 65279

/-- JavaScript `String.prototype.trim`: strips whitespace from both
    ends. -/
def jsTrim (s : String) : String :=
  String.mk (((s.data.dropWhile isJsWhitespace).reverse.dropWhile isJsWhitespace).reverse)

/-- User-visible message in the catch branch of `handleSearch`
    (src/index.jsx line 166). -/
def searchFailMessage : String := "Failed to fetch search results from Wikipedia."

/-- User-visible message for zero search matches
    (src/index.jsx line 162). -/
def noResultsMessage (term : String) : String :=
  "No results found for \"" ++ term ++ "\""

/-- User-visible message in the catch branch of `fetchArticleExtract`
    (src/index.jsx line 209). -/
def articleFailMessage : String := "Failed to load article content."

/-- User-visible message when the extract fetch succeeds but no usable
    extract is present (src/index.jsx line 205). -/
def missingExtractMessage (title : String) : String :=
  "Could not retrieve full article content for " ++ title ++ "."

/-- State writes `handleSearch` performs before its fetch resolves
    (src/index.jsx lines 132-136). -/
def handleSearchStart (s : AppState) : AppState :=
  { s with hasSearched := true, loading := true, results := [],
           selectedArticle := none, error := none }

/-- State writes `handleSearch` performs once its fetch settles
    (src/index.jsx lines 148-169): throw on non-ok status or on a
    `data.error` payload, otherwise take `data.query?.search || []`,
    set it as the result list and report when it is empty; the catch
    branch sets the generic failure message; finally clears `loading`. -/
def handleSearchResolve (s : AppState) (o : SearchFetch) : AppState :=
  match o with
  | .transportError _ => { s with error := some searchFailMessage, loading := false }
  | .httpNotOk => { s with error := some searchFailMessage, loading := false }
  | .ok d =>
    if d.error.isSome then
      { s with error := some searchFailMessage, loading := false }
    else
      let searchResults := d.search.getD []
      let s2 := { s with results := searchResults }
      let s3 := if searchResults.length = 0 then
          { s2 with error := some (noResultsMessage s.searchTerm) }
        else s2
      { s3 with loading := false }

/-- `handleSearch` (src/index.jsx lines 128-170): a no-op when the
    trimmed search term is empty, otherwise the start writes followed
    by the completion writes for the fetch outcome `o`. -/
def handleSearch (s : AppState) (o : SearchFetch) : AppState :=
  if jsTrim s.searchTerm = "" then s
  else handleSearchResolve (handleSearchStart s) o

/-- `console.error('Search error:', err)` diagnostics of one
    `handleSearch` completion (src/index.jsx line 165); the throw sites
    carry the fixed status message or `data.error.info`. -/
def searchLog (o : SearchFetch) : List String :=
  match o with
  | .transportError detail => ["Search error: " ++ detail]
  | .httpNotOk => ["Search error: Network response was not ok"]
  | .ok d =>
    match d.error with
    | some info => ["Search error: " ++ info]
    | none => []

/-- Diagnostics logged by a full `handleSearch` call: nothing when the
    guard returns early. -/
def handleSearchLog (s : AppState) (o : SearchFetch) : List String :=
  if jsTrim s.searchTerm = "" then [] else searchLog o

/-- The search request `handleSearch` builds
    (src/index.jsx lines 138-146). -/
structure SearchRequest where
  action : String
  list : String
  srsearch : String
  format : String
  origin : String
  srlimit : Nat
deriving DecidableEq

/-- Parameters of the search request for a given term. -/
def searchRequest (term : String) : SearchRequest :=
  { action := "query", list := "search", srsearch := term,
    format := "json", origin := "*", srlimit := 10 }

/-- Requests issued by one `handleSearch` call: none when the trimmed
    term is empty (the guard returns before the fetch), otherwise the
    single search request. -/
def handleSearchRequests (s : AppState) : List SearchRequest :=
  if jsTrim s.searchTerm = "" then [] else [searchRequest s.searchTerm]

/-- The extract request `fetchArticleExtract` builds
    (src/index.jsx lines 178-188). -/
structure ExtractRequest where
  action : String
  prop : String
  titles : String
  explaintext : Bool
  exintro : Bool
  format : String
  origin : String
  formatversion : Nat
  exlimit : Nat
deriving DecidableEq

/-- Parameters of the extract request for a given title. -/
def extractRequest (title : String) : ExtractRequest :=
  { action := "query", prop := "extracts", titles := title,
    explaintext := true, exintro := true, format := "json",
    origin := "*", formatversion := 2, exlimit := 1 }

/-- Requests issued by one `fetchArticleExtract` call: always exactly
    one, with no guard on the title. -/
def fetchArticleRequests (title : String) : List ExtractRequest :=
  [extractRequest title]

/-- State writes `fetchArticleExtract` performs before its fetch
    resolves (src/index.jsx lines 174-176). -/
def fetchArticleStart (s : AppState) : AppState :=
  { s with selectedArticle := none, loading := true, error := none }

/-- State writes `fetchArticleExtract` performs once its fetch settles
    (src/index.jsx lines 190-212): throw on non-ok status; take
    `data.query?.pages?.[0]`; when the page exists and its extract is
    truthy (present and non-empty) select the article with the canonical
    URL built from the percent-encoded page title, else report the
    missing extract; the catch branch sets the generic failure message;
    finally clears `loading`.  Note the body's `data.error` is never
    inspected here. -/
def fetchArticleResolve (s : AppState) (title : String) (o : ExtractFetch) : AppState :=
  match o with
  | .transportError _ => { s with error := some articleFailMessage, loading := false }
  | .httpNotOk => { s with error := some articleFailMessage, loading := false }
  | .ok d =>
    match d.page with
    | some p =>
      match p.extract with
      | some e =>
        if e = "" then
          { s with error := some (missingExtractMessage title), loading := false }
        else
          let a : Article :=
            { title := p.title, content := e,
              url := "https://en.wikipedia.org/wiki/" ++ encodeURIComponent p.title }
          { s with selectedArticle := some a, loading := false }
      | none => { s with error := some (missingExtractMessage title), loading := false }
    | none => { s with error := some (missingExtractMessage title), loading := false }

/-- `fetchArticleExtract` (src/index.jsx lines 173-213): the start
    writes followed by the completion writes for the fetch outcome. -/
def fetchArticleExtract (s : AppState) (title : String) (o : ExtractFetch) : AppState :=
  fetchArticleResolve (fetchArticleStart s) title o

/-- `console.error('Article fetch error:', err)` diagnostics of one
    `fetchArticleExtract` completion (src/index.jsx line 208).  The
    success path logs nothing, even when the body carries an error
    payload. -/
def fetchArticleLog (o : ExtractFetch) : List String :=
  match o with
  | .transportError detail => ["Article fetch error: " ++ detail]
  | .httpNotOk => ["Article fetch error: Network response was not ok"]
  | .ok _ => []

/-- `clearArticle` (src/index.jsx lines 215-217). -/
def clearArticle (s : AppState) : AppState :=
  { s with selectedArticle := none }

/-- Requests issued by `clearArticle`: its body is a single
    `setSelectedArticle(null)`, so none. -/
def clearArticleRequests : List ExtractRequest := []

/-- The extract requests reachable from the rendered result list:
    each result button's `onClick` is
    `fetchArticleExtract(result.title)` (src/index.jsx lines 229-232). -/
def clickExtractRequests (s : AppState) : List ExtractRequest :=
  s.results.map (fun r => extractRequest r.title)

/-- Predicate of the claim's failure taxonomy for the search fetch:
    transport failure, non-ok status, or a remote-reported error
    payload. -/
def isSearchFailure : SearchFetch → Bool
  | .transportError _ => true
  | .httpNotOk => true
  | .ok d => d.error.isSome

/-- The mutual-exclusion invariant: the error message and the selected
    article are never both set. -/
def errorArticleExclusive (s : AppState) : Bool :=
  !(s.error.isSome && s.selectedArticle.isSome)

/-- C1: for every search term that is non-empty after trimming and
every search response containing at least one match, `handleSearch`
leaves the controller results-populated: the list equals the response's
match list (same length, same order), the request caps matches at 10
via `srlimit`, and error/article/loading are clear. -/
theorem handleSearch_populates_results (s : AppState) (d : SearchData)
    (ms : List SearchResult) (hterm : jsTrim s.searchTerm ≠ "")
    (herr : d.error = none) (hsearch : d.search = some ms) (hne : ms ≠ []) :
    (handleSearch s (.ok d)).results = ms ∧
    (handleSearch s (.ok d)).error = none ∧
    (handleSearch s (.ok d)).selectedArticle = none ∧
    (handleSearch s (.ok d)).loading = false ∧
    (searchRequest s.searchTerm).srlimit = 10 ∧
    (ms.length ≤ 10 → (handleSearch s (.ok d)).results.length = min ms.length 10) := by
  have hlen : ¬ ms.length = 0 := by simpa [List.length_eq_zero] using hne
  simp [handleSearch, handleSearchResolve, handleSearchStart, hterm, herr,
    hsearch, hlen, searchRequest]

/-- C1 witness: a concrete three-match response populates the list in
response order. -/
theorem handleSearch_populates_results_witness :
    (handleSearch (setSearchTerm initialState "Quantum computing")
        (.ok ⟨none, some [⟨100, "Quantum computing", "s1"⟩, ⟨200, "Qubit", "s2"⟩,
          ⟨300, "Quantum entanglement", "s3"⟩]⟩)).results =
      [⟨100, "Quantum computing", "s1"⟩, ⟨200, "Qubit", "s2"⟩,
        ⟨300, "Quantum entanglement", "s3"⟩] ∧
    (handleSearch (setSearchTerm initialState "Quantum computing")
        (.ok ⟨none, some [⟨100, "Quantum computing", "s1"⟩, ⟨200, "Qubit", "s2"⟩,
          ⟨300, "Quantum entanglement", "s3"⟩]⟩)).error = none ∧
    (handleSearch (setSearchTerm initialState "Quantum computing")
        (.ok ⟨none, some [⟨100, "Quantum computing", "s1"⟩, ⟨200, "Qubit", "s2"⟩,
          ⟨300, "Quantum entanglement", "s3"⟩]⟩)).selectedArticle = none ∧
    (handleSearch (setSearchTerm initialState "Quantum computing")
        (.ok ⟨none, some [⟨100, "Quantum computing", "s1"⟩, ⟨200, "Qubit", "s2"⟩,
          ⟨300, "Quantum entanglement", "s3"⟩]⟩)).loading = false ∧
    (searchRequest (setSearchTerm initialState "Quantum computing").searchTerm).srlimit = 10 ∧
    (handleSearch (setSearchTerm initialState "Quantum computing")
        (.ok ⟨none, some [⟨100, "Quantum computing", "s1"⟩, ⟨200, "Qubit", "s2"⟩,
          ⟨300, "Quantum entanglement", "s3"⟩]⟩)).results.length =
      min ([⟨100, "Quantum computing", "s1"⟩, ⟨200, "Qubit", "s2"⟩,
        ⟨300, "Quantum entanglement", "s3"⟩] : List SearchResult).length 10 := by
  have h := handleSearch_populates_results (setSearchTerm initialState "Quantum computing")
    ⟨none, some [⟨100, "Quantum computing", "s1"⟩, ⟨200, "Qubit", "s2"⟩,
      ⟨300, "Quantum entanglement", "s3"⟩]⟩
    [⟨100, "Quantum computing", "s1"⟩, ⟨200, "Qubit", "s2"⟩,
      ⟨300, "Quantum entanglement", "s3"⟩] (by decide) rfl rfl (by decide)
  exact ⟨h.1, h.2.1, h.2.2.1, h.2.2.2.1, h.2.2.2.2.1, h.2.2.2.2.2 (by decide)⟩

/-- C3: for every invocation of `handleSearch` with a term non-empty
after trimming, the state passed to the fetch completion (the state
before the request resolves) has the prior error, prior article and
prior result list all cleared, regardless of the previous state. -/
theorem handleSearch_clears_prior_state (s : AppState)
    (hterm : jsTrim s.searchTerm ≠ "") :
    (handleSearchStart s).error = none ∧
    (handleSearchStart s).selectedArticle = none ∧
    (handleSearchStart s).results = [] ∧
    (handleSearchStart s).loading = true ∧
    ∀ o, handleSearch s o = handleSearchResolve (handleSearchStart s) o := by
  simp [handleSearchStart, handleSearch, hterm]

/-- C3 witness: starting a search from a state holding an old error, an
old article and old results clears all three. -/
theorem handleSearch_clears_prior_state_witness :
    (handleSearchStart ⟨"next", [⟨1, "Old", "o"⟩], false, some "old error",
        some ⟨"Old", "c", "u"⟩, true⟩).error = none ∧
    (handleSearchStart ⟨"next", [⟨1, "Old", "o"⟩], false, some "old error",
        some ⟨"Old", "c", "u"⟩, true⟩).selectedArticle = none ∧
    (handleSearchStart ⟨"next", [⟨1, "Old", "o"⟩], false, some "old error",
        some ⟨"Old", "c", "u"⟩, true⟩).results = [] ∧
    (handleSearchStart ⟨"next", [⟨1, "Old", "o"⟩], false, some "old error",
        some ⟨"Old", "c", "u"⟩, true⟩).loading = true ∧
    handleSearch ⟨"next", [⟨1, "Old", "o"⟩], false, some "old error",
        some ⟨"Old", "c", "u"⟩, true⟩ .httpNotOk =
      handleSearchResolve (handleSearchStart ⟨"next", [⟨1, "Old", "o"⟩], false,
        some "old error", some ⟨"Old", "c", "u"⟩, true⟩) .httpNotOk := by
  have h := handleSearch_clears_prior_state ⟨"next", [⟨1, "Old", "o"⟩], false,
    some "old error", some ⟨"Old", "c", "u"⟩, true⟩ (by decide)
  exact ⟨h.1, h.2.1, h.2.2.1, h.2.2.2.1, h.2.2.2.2 _⟩

/-- C4: for every search term non-empty after trimming whose response
carries zero matches, `handleSearch` ends in the Error state with the
message "No results found for \"term\"", which contains the literal
searched term; no article is selected and loading is cleared. -/
theorem handleSearch_zero_results_error (s : AppState) (d : SearchData)
    (hterm : jsTrim s.searchTerm ≠ "") (herr : d.error = none)
    (hz : d.search.getD [] = []) :
    (handleSearch s (.ok d)).error = some (noResultsMessage s.searchTerm) ∧
    noResultsMessage s.searchTerm = "No results found for \"" ++ s.searchTerm ++ "\"" ∧
    (∃ a b, noResultsMessage s.searchTerm = a ++ s.searchTerm ++ b) ∧
    (handleSearch s (.ok d)).selectedArticle = none ∧
    (handleSearch s (.ok d)).results = [] ∧
    (handleSearch s (.ok d)).loading = false := by
  refine ⟨?_, rfl, ⟨"No results found for \"", "\"", rfl⟩, ?_, ?_, ?_⟩ <;>
    simp [handleSearch, handleSearchResolve, handleSearchStart, hterm, herr, hz]

/-- C4 witness: a concrete empty-match response yields the
term-naming error. -/
theorem handleSearch_zero_results_error_witness :
    (handleSearch (setSearchTerm initialState "zxqj") (.ok ⟨none, some []⟩)).error =
      some (noResultsMessage (setSearchTerm initialState "zxqj").searchTerm) ∧
    noResultsMessage (setSearchTerm initialState "zxqj").searchTerm =
      "No results found for \"" ++ (setSearchTerm initialState "zxqj").searchTerm ++ "\"" ∧
    (∃ a b, noResultsMessage (setSearchTerm initialState "zxqj").searchTerm =
      a ++ (setSearchTerm initialState "zxqj").searchTerm ++ b) ∧
    (handleSearch (setSearchTerm initialState "zxqj") (.ok ⟨none, some []⟩)).selectedArticle = none ∧
    (handleSearch (setSearchTerm initialState "zxqj") (.ok ⟨none, some []⟩)).results = [] ∧
    (handleSearch (setSearchTerm initialState "zxqj") (.ok ⟨none, some []⟩)).loading = false :=
  handleSearch_zero_results_error _ _ (by decide) rfl rfl

/-- C7: for every term empty after trimming, `handleSearch` is a no-op:
no network request is issued, nothing is logged, and the whole state
record is unchanged. -/
theorem handleSearch_empty_term_noop (s : AppState) (o : SearchFetch)
    (hterm : jsTrim s.searchTerm = "") :
    handleSearch s o = s ∧ handleSearchRequests s = [] ∧
    handleSearchLog s o = [] := by
  simp [handleSearch, handleSearchRequests, handleSearchLog, hterm]

/-- C7 witness: submitting a whitespace-only term from a populated
state changes nothing and issues no request. -/
theorem handleSearch_empty_term_noop_witness :
    handleSearch ⟨" \u2003\u2028 ", [⟨1, "A", "s"⟩], false, some "e", none, true⟩ .httpNotOk =
      ⟨" \u2003\u2028 ", [⟨1, "A", "s"⟩], false, some "e", none, true⟩ ∧
    handleSearchRequests ⟨" \u2003\u2028 ", [⟨1, "A", "s"⟩], false, some "e", none, true⟩ = [] ∧
    handleSearchLog ⟨" \u2003\u2028 ", [⟨1, "A", "s"⟩], false, some "e", none, true⟩ .httpNotOk = [] :=
  handleSearch_empty_term_noop _ _ (by decide)

/-- C2: for every title whose extract response holds a page with a
non-empty extract, `fetchArticleExtract` ends Viewing that page: the
article's content is the returned extract verbatim, and its URL is the
canonical article path with the page title percent-encoded; the error
is clear and exactly one extract request was issued. -/
theorem fetchArticleExtract_success_viewing (s : AppState) (title : String)
    (d : ExtractData) (p : ExtractPage) (e : String)
    (hp : d.page = some p) (he : p.extract = some e) (hne : e ≠ "") :
    (fetchArticleExtract s title (.ok d)).selectedArticle =
      some ⟨p.title, e, "https://en.wikipedia.org/wiki/" ++ encodeURIComponent p.title⟩ ∧
    (fetchArticleExtract s title (.ok d)).error = none ∧
    (fetchArticleExtract s title (.ok d)).loading = false ∧
    fetchArticleRequests title = [extractRequest title] := by
  simp [fetchArticleExtract, fetchArticleResolve, fetchArticleStart, hp, he,
    hne, fetchArticleRequests]

/-- C2 witness: the "Quantum computing" scenario, with the URL
evaluated to "https://en.wikipedia.org/wiki/Quantum%20computing". -/
theorem fetchArticleExtract_success_viewing_witness :
    (fetchArticleExtract initialState "Quantum computing"
        (.ok ⟨none, some ⟨"Quantum computing", some "Quantum computing is..."⟩⟩)).selectedArticle =
      some ⟨"Quantum computing", "Quantum computing is...",
        "https://en.wikipedia.org/wiki/" ++ encodeURIComponent "Quantum computing"⟩ ∧
    (fetchArticleExtract initialState "Quantum computing"
        (.ok ⟨none, some ⟨"Quantum computing", some "Quantum computing is..."⟩⟩)).error = none ∧
    "https://en.wikipedia.org/wiki/" ++ encodeURIComponent "Quantum computing" =
      "https://en.wikipedia.org/wiki/Quantum%20computing" := by
  have h := fetchArticleExtract_success_viewing initialState "Quantum computing"
    ⟨none, some ⟨"Quantum computing", some "Quantum computing is..."⟩⟩
    ⟨"Quantum computing", some "Quantum computing is..."⟩
    "Quantum computing is..." rfl rfl (by decide)
  exact ⟨h.1, h.2.1, by decide⟩

/-- C5: for every title whose extract response lacks a usable extract
(no page, no extract field, or an empty extract string),
`fetchArticleExtract` ends in the Error state with the message
"Could not retrieve full article content for title.", which contains
the requested title, and no article becomes selected. -/
theorem fetchArticleExtract_missing_extract_error (s : AppState)
    (title : String) (d : ExtractData)
    (hmiss : (d.page.bind ExtractPage.extract).getD "" = "") :
    (fetchArticleExtract s title (.ok d)).error = some (missingExtractMessage title) ∧
    missingExtractMessage title =
      "Could not retrieve full article content for " ++ title ++ "." ∧
    (∃ a b, missingExtractMessage title = a ++ title ++ b) ∧
    (fetchArticleExtract s title (.ok d)).selectedArticle = none ∧
    (fetchArticleExtract s title (.ok d)).loading = false := by
  have hres : fetchArticleExtract s title (.ok d) =
      { fetchArticleStart s with
        error := some (missingExtractMessage title),
        loading := false } := by
    obtain ⟨de, dp⟩ := d
    rcases dp with _ | p
    · rfl
    · obtain ⟨pt, pe⟩ := p
      rcases pe with _ | e
      · rfl
      · have he : e = "" := by simpa using hmiss
        subst he
        rfl
  refine ⟨?_, rfl, ⟨"Could not retrieve full article content for ", ".", rfl⟩, ?_, ?_⟩ <;>
    simp [hres, fetchArticleStart]

/-- C5 witness: a response whose only page has an empty extract yields
the title-naming error and no selection. -/
theorem fetchArticleExtract_missing_extract_error_witness :
    (fetchArticleExtract initialState "Qubit"
        (.ok ⟨none, some ⟨"Qubit", some ""⟩⟩)).error =
      some (missingExtractMessage "Qubit") ∧
    missingExtractMessage "Qubit" =
      "Could not retrieve full article content for " ++ "Qubit" ++ "." ∧
    (∃ a b, missingExtractMessage "Qubit" = a ++ "Qubit" ++ b) ∧
    (fetchArticleExtract initialState "Qubit"
        (.ok ⟨none, some ⟨"Qubit", some ""⟩⟩)).selectedArticle = none ∧
    (fetchArticleExtract initialState "Qubit"
        (.ok ⟨none, some ⟨"Qubit", some ""⟩⟩)).loading = false :=
  fetchArticleExtract_missing_extract_error _ _ _ (by decide)

/-- C6 counterexample: after a search that populates one result, a
failed `fetchArticleExtract` leaves an error message with the result
list intact; a subsequent successful `fetchArticleExtract` followed by
`clearArticle` does not return to that pre-selection state — the prior
error message is wiped, not restored. -/
theorem clearArticle_not_full_restore_cex :
    clearArticle (fetchArticleExtract (fetchArticleExtract (handleSearch
        (setSearchTerm initialState "a") (.ok ⟨none, some [⟨1, "A", "s"⟩]⟩))
        "A" .httpNotOk) "A" (.ok ⟨none, some ⟨"A", some "body"⟩⟩)) ≠
      fetchArticleExtract (handleSearch (setSearchTerm initialState "a")
        (.ok ⟨none, some [⟨1, "A", "s"⟩]⟩)) "A" .httpNotOk ∧
    (fetchArticleExtract (handleSearch (setSearchTerm initialState "a")
        (.ok ⟨none, some [⟨1, "A", "s"⟩]⟩)) "A" .httpNotOk).error =
      some articleFailMessage ∧
    (fetchArticleExtract (handleSearch (setSearchTerm initialState "a")
        (.ok ⟨none, some [⟨1, "A", "s"⟩]⟩)) "A" .httpNotOk).results =
      [⟨1, "A", "s"⟩] ∧
    (clearArticle (fetchArticleExtract (fetchArticleExtract (handleSearch
        (setSearchTerm initialState "a") (.ok ⟨none, some [⟨1, "A", "s"⟩]⟩))
        "A" .httpNotOk) "A" (.ok ⟨none, some ⟨"A", some "body"⟩⟩))).error = none := by
  decide

/-- C6 (amended): `clearArticle` is unconditional, clears only the
selected article and issues no network request; after a successful
`fetchArticleExtract` it returns the controller to the state held
immediately before that call — result list intact — whenever that
state had no error set, was not loading and had no article selected
(a prior error message is cleared rather than restored). -/
theorem clearArticle_restores_results (s : AppState) (title : String)
    (d : ExtractData) (p : ExtractPage) (e : String)
    (hp : d.page = some p) (he : p.extract = some e) (hne : e ≠ "")
    (herr : s.error = none) (hload : s.loading = false)
    (hart : s.selectedArticle = none) :
    clearArticle (fetchArticleExtract s title (.ok d)) = s ∧
    (clearArticle (fetchArticleExtract s title (.ok d))).results = s.results ∧
    (∀ t : AppState, clearArticle t = { t with selectedArticle := none }) ∧
    clearArticleRequests = [] := by
  have hmain : clearArticle (fetchArticleExtract s title (.ok d)) = s := by
    obtain ⟨st, sr, sl, serr, ssel, sh⟩ := s
    simp only [AppState.error] at herr
    simp only [AppState.loading] at hload
    simp only [AppState.selectedArticle] at hart
    subst herr hload hart
    simp [clearArticle, fetchArticleExtract, fetchArticleResolve,
      fetchArticleStart, hp, he, hne]
  exact ⟨hmain, by rw [hmain], fun t => rfl, rfl⟩

/-- C6 witness: the round trip at a concrete results-populated state
and a concrete successful extract response. -/
theorem clearArticle_restores_results_witness :
    clearArticle (fetchArticleExtract ⟨"a", [⟨1, "A", "s"⟩], false, none, none, true⟩
        "A" (.ok ⟨none, some ⟨"A", some "body"⟩⟩)) =
      ⟨"a", [⟨1, "A", "s"⟩], false, none, none, true⟩ ∧
    (clearArticle (fetchArticleExtract ⟨"a", [⟨1, "A", "s"⟩], false, none, none, true⟩
        "A" (.ok ⟨none, some ⟨"A", some "body"⟩⟩))).results =
      (⟨"a", [⟨1, "A", "s"⟩], false, none, none, true⟩ : AppState).results ∧
    clearArticle initialState = { initialState with selectedArticle := none } ∧
    clearArticleRequests = [] := by
  have h := clearArticle_restores_results ⟨"a", [⟨1, "A", "s"⟩], false, none, none, true⟩
    "A" ⟨none, some ⟨"A", some "body"⟩⟩ ⟨"A", some "body"⟩ "body"
    rfl rfl (by decide) rfl rfl rfl
  exact ⟨h.1, h.2.1, h.2.2.1 _, h.2.2.2⟩

/-- C8 counterexample: an extract response carrying a remote-reported
error payload (and hence no page) ends in the Error state, but the
message is the title-naming missing-extract one rather than the generic
failure message, and nothing is logged — `fetchArticleExtract` never
inspects `data.error`. -/
theorem fetch_apiError_not_logged_cex :
    (fetchArticleExtract initialState "Alan Turing"
        (.ok ⟨some "internal_api_error: DBQueryError", none⟩)).error =
      some "Could not retrieve full article content for Alan Turing." ∧
    fetchArticleLog (.ok ⟨some "internal_api_error: DBQueryError", none⟩) = [] ∧
    (fetchArticleExtract initialState "Alan Turing"
        (.ok ⟨some "internal_api_error: DBQueryError", none⟩)).error ≠
      some articleFailMessage := by
  decide

/-- C8 (amended): every transport-level failure, non-ok HTTP status or
remote-reported error payload during `handleSearch` ends in the Error
state with the fixed generic search failure message and the detail
logged; a transport-level failure or non-ok status during
`fetchArticleExtract` ends in Error with the fixed generic article
failure message and the detail logged; a remote-reported error payload
during `fetchArticleExtract` (which comes with no page) is instead
handled as a missing extract: Error naming the title, nothing logged.
In every case the user-visible message is independent of the failure
detail. -/
theorem failure_paths_generic_and_logged (s : AppState) (title detail info : String)
    (o : SearchFetch) (d : ExtractData) (hterm : jsTrim s.searchTerm ≠ "") :
    (isSearchFailure o = true →
      (handleSearch s o).error = some searchFailMessage ∧
      (handleSearch s o).selectedArticle = none ∧
      handleSearchLog s o ≠ []) ∧
    ((fetchArticleExtract s title (.transportError detail)).error =
        some articleFailMessage ∧
      fetchArticleLog (.transportError detail) = ["Article fetch error: " ++ detail]) ∧
    ((fetchArticleExtract s title .httpNotOk).error = some articleFailMessage ∧
      fetchArticleLog .httpNotOk = ["Article fetch error: Network response was not ok"]) ∧
    (d.error = some info → d.page = none →
      (fetchArticleExtract s title (.ok d)).error = some (missingExtractMessage title) ∧
      fetchArticleLog (.ok d) = []) := by
  refine ⟨?_, ⟨?_, rfl⟩, ⟨?_, rfl⟩, ?_⟩
  · intro hfail
    rcases o with d0 | _ | d0
    · simp [handleSearch, handleSearchResolve, handleSearchStart,
        handleSearchLog, searchLog, hterm]
    · simp [handleSearch, handleSearchResolve, handleSearchStart,
        handleSearchLog, searchLog, hterm]
    · simp only [isSearchFailure, Option.isSome_iff_exists] at hfail
      obtain ⟨a, ha⟩ := hfail
      simp [handleSearch, handleSearchResolve, handleSearchStart,
        handleSearchLog, searchLog, hterm, ha]
  · simp [fetchArticleExtract, fetchArticleResolve, fetchArticleStart]
  · simp [fetchArticleExtract, fetchArticleResolve, fetchArticleStart]
  · intro hinfo hpage
    simp [fetchArticleExtract, fetchArticleResolve, fetchArticleStart,
      fetchArticleLog, hpage]

/-- C8 witness: the amended behaviour at concrete failures — a failed
search fetch, a failed extract fetch, and an extract response carrying
only an error payload. -/
theorem failure_paths_generic_and_logged_witness :
    ((handleSearch (setSearchTerm initialState "cats") (.transportError "TypeError")).error =
        some searchFailMessage ∧
      (handleSearch (setSearchTerm initialState "cats") (.transportError "TypeError")).selectedArticle = none ∧
      handleSearchLog (setSearchTerm initialState "cats") (.transportError "TypeError") ≠ []) ∧
    ((fetchArticleExtract (setSearchTerm initialState "cats") "Cat"
        (.transportError "TypeError")).error = some articleFailMessage ∧
      fetchArticleLog (.transportError "TypeError") = ["Article fetch error: " ++ "TypeError"]) ∧
    ((fetchArticleExtract (setSearchTerm initialState "cats") "Cat" .httpNotOk).error =
        some articleFailMessage ∧
      fetchArticleLog .httpNotOk = ["Article fetch error: Network response was not ok"]) ∧
    ((fetchArticleExtract (setSearchTerm initialState "cats") "Cat"
        (.ok ⟨some "maxlag", none⟩)).error = some (missingExtractMessage "Cat") ∧
      fetchArticleLog (.ok ⟨some "maxlag", none⟩) = []) := by
  have h := failure_paths_generic_and_logged (setSearchTerm initialState "cats")
    "Cat" "TypeError" "maxlag" (.transportError "TypeError")
    ⟨some "maxlag", none⟩ (by decide)
  exact ⟨h.1 rfl, h.2.1, h.2.2.1, h.2.2.2 rfl rfl⟩

/-- C9 counterexample: the code has no guard on result titles, so an
empty-titled entry in a search response is accepted into the result
list, and the extract request its button would issue carries an empty
`titles` parameter. -/
theorem empty_title_request_reachable_cex :
    (handleSearch (setSearchTerm initialState "x")
        (.ok ⟨none, some [⟨1, "", ""⟩]⟩)).results = [⟨1, "", ""⟩] ∧
    clickExtractRequests (handleSearch (setSearchTerm initialState "x")
        (.ok ⟨none, some [⟨1, "", ""⟩]⟩)) = [extractRequest ""] ∧
    (extractRequest "").titles = "" ∧
    fetchArticleRequests "" = [extractRequest ""] := by
  decide

/-- C9 (amended): every content-extraction request reachable from the
result list carries exactly the clicked result's title, so all such
requests have non-empty titles whenever every title in the current
result list is non-empty; the code itself performs no emptiness guard
on the title. -/
theorem extract_request_title_from_results (s : AppState)
    (h : ∀ r ∈ s.results, r.title ≠ "") :
    (∀ req ∈ clickExtractRequests s, req.titles ≠ "") ∧
    clickExtractRequests s = s.results.map (fun r => extractRequest r.title) ∧
    (∀ t, (extractRequest t).titles = t) := by
  refine ⟨?_, rfl, fun t => rfl⟩
  intro req hreq
  simp only [clickExtractRequests, List.mem_map] at hreq
  obtain ⟨r, hr, hreq⟩ := hreq
  subst hreq
  exact h r hr

/-- C9 witness: with a concrete non-empty-titled result list, the one
reachable extract request has a non-empty title. -/
theorem extract_request_title_from_results_witness :
    ((extractRequest "Cat").titles ≠ "") ∧
    clickExtractRequests ⟨"cats", [⟨1, "Cat", "s"⟩], false, none, none, true⟩ =
      [extractRequest "Cat"] ∧
    (extractRequest "Cat").titles = "Cat" := by
  have h := extract_request_title_from_results
    ⟨"cats", [⟨1, "Cat", "s"⟩], false, none, none, true⟩ (by decide)
  exact ⟨h.1 (extractRequest "Cat") (by decide), h.2.1, h.2.2 "Cat"⟩

/-- C10: the error message and the selected article are never both set:
the invariant holds initially and is preserved by every completion of
`handleSearch` and `fetchArticleExtract` and by `clearArticle`. -/
theorem error_article_mutual_exclusion (s : AppState)
    (hinv : errorArticleExclusive s = true) :
    errorArticleExclusive initialState = true ∧
    (∀ o, errorArticleExclusive (handleSearch s o) = true) ∧
    (∀ title o, errorArticleExclusive (fetchArticleExtract s title o) = true) ∧
    errorArticleExclusive (clearArticle s) = true := by
  refine ⟨rfl, ?_, ?_, ?_⟩
  · intro o
    by_cases hterm : jsTrim s.searchTerm = ""
    · simpa [handleSearch, hterm] using hinv
    · rcases o with d0 | _ | d0 <;>
        simp [handleSearch, handleSearchResolve, handleSearchStart,
          errorArticleExclusive, hterm] <;>
        split_ifs <;> simp
  · intro title o
    rcases o with d0 | _ | d0
    · simp [fetchArticleExtract, fetchArticleResolve, fetchArticleStart,
        errorArticleExclusive]
    · simp [fetchArticleExtract, fetchArticleResolve, fetchArticleStart,
        errorArticleExclusive]
    · obtain ⟨de, dp⟩ := d0
      rcases dp with _ | p
      · simp [fetchArticleExtract, fetchArticleResolve, fetchArticleStart,
          errorArticleExclusive]
      · obtain ⟨pt, pe⟩ := p
        rcases pe with _ | e <;>
          simp [fetchArticleExtract, fetchArticleResolve, fetchArticleStart,
            errorArticleExclusive] <;>
          split_ifs <;> simp
  · simp [clearArticle, errorArticleExclusive]

/-- C10 witness: the invariant after each operation from a concrete
error-carrying state. -/
theorem error_article_mutual_exclusion_witness :
    errorArticleExclusive initialState = true ∧
    errorArticleExclusive (handleSearch ⟨"a", [], false, some "e", none, true⟩ .httpNotOk) = true ∧
    errorArticleExclusive (fetchArticleExtract ⟨"a", [], false, some "e", none, true⟩
      "T" (.ok ⟨none, some ⟨"T", some "body"⟩⟩)) = true ∧
    errorArticleExclusive (clearArticle ⟨"a", [], false, some "e", none, true⟩) = true := by
  have h := error_article_mutual_exclusion ⟨"a", [], false, some "e", none, true⟩ (by decide)
  exact ⟨h.1, h.2.1 _, h.2.2.1 "T" _, h.2.2.2⟩
